import Mathlib

/-!
Shallow embedding of `src/tools/cephfs_mirror/PeerReplayer.h` (cephfs-mirror
peer replayer): the per-directory sync statistics table, the backoff check,
the snapshot-replayer thread cancellation flag, and the tree-entry type
predicate.  Stateful C++ members become explicit state passing on
`PeerReplayerState`; `std::map::at` (which throws on a missing key) becomes an
`Option`-returning operation; the coarse mono clock is passed in as an
explicit `now : Nat`; machine integers are `Nat`/`Int`.
-/

namespace CephfsMirror

/-- Linux errno value `ESHUTDOWN`; ceph defines `EBLOCKLISTED` to `ESHUTDOWN`
(108), as the comment in `should_backoff` notes. -/
def EBLOCKLISTED : Int := 108

/-- Linux errno value 115, used by `should_backoff` to identify shutdown
(since `EBLOCKLISTED` aliases `ESHUTDOWN`). -/
def EINPROGRESS : Int := 115

/-- Linux errno value 125, returned by `should_backoff` when the worker
thread registered for the directory has been canceled. -/
def ECANCELED : Int := 125

/-- `S_IFMT` file-type bit mask from `sys/stat.h` (octal 170000). -/
def S_IFMT : Nat := 0o170000

/-- `S_IFDIR` directory file-type bits from `sys/stat.h` (octal 040000). -/
def S_IFDIR : Nat := 0o040000

/-- `S_ISDIR(m)` from `sys/stat.h`: the mode has the directory type bits. -/
def S_ISDIR (mode : Nat) : Bool :=
  mode &&& S_IFMT == S_IFDIR

/-- The slice of `struct ceph_statx` the embedded code reads: the mode. -/
structure ceph_statx where
  stx_mode : Nat
deriving DecidableEq

/-- `PeerReplayer::SyncEntry`: one filesystem node visited during a
replication walk; `dirp` is the traversal handle (a pointer in C++, modelled
as an optional handle id), valid for directories. -/
structure SyncEntry where
  epath : String
  dirp : Option Nat
  stx : ceph_statx
deriving DecidableEq

/-- `SyncEntry::is_directory`: `S_ISDIR(stx.stx_mode)`. -/
def SyncEntry.is_directory (e : SyncEntry) : Bool :=
  S_ISDIR e.stx.stx_mode

/-- `PeerReplayer::SnapshotReplayerThread`: only its cancellation flag is
relevant to the embedded operations (`canceled = false` initially). -/
structure SnapshotReplayerThread where
  canceled : Bool := false
deriving DecidableEq

/-- `SnapshotReplayerThread::cancel`: sets `canceled = true`. -/
def SnapshotReplayerThread.cancel (t : SnapshotReplayerThread) :
    SnapshotReplayerThread :=
  { t with canceled := true }

/-- `SnapshotReplayerThread::is_canceled`: reads the `canceled` flag. -/
def SnapshotReplayerThread.is_canceled (t : SnapshotReplayerThread) : Bool :=
  t.canceled

/-- `PeerReplayer::DirRegistry`: the advisory-lock fd and the worker thread
responsible for the directory (the thread object is inlined in place of the
C++ pointer). -/
structure DirRegistry where
  fd : Int
  replayer : SnapshotReplayerThread
deriving DecidableEq

/-- `PeerReplayer::SnapSyncStat`, with the member initializers of the C++
struct as field defaults.  Timestamps (`ceph::coarse_mono_time`) are `Nat`
ticks; the `double` sync duration is stored verbatim, modelled as `Nat`. -/
structure SnapSyncStat where
  nr_failures : Nat := 0
  last_failed : Option Nat := none
  failed : Bool := false
  last_synced_snap : Option (Nat × String) := none
  current_syncing_snap : Option (Nat × String) := none
  synced_snap_count : Nat := 0
  deleted_snap_count : Nat := 0
  renamed_snap_count : Nat := 0
  last_synced : Nat := 0
  last_sync_duration : Option Nat := none
deriving DecidableEq

/-- The `PeerReplayer` members the embedded operations touch.  The two
`std::map`s become `Option`-valued lookup functions (`none` = key absent). -/
structure PeerReplayerState where
  m_registered : String → Option DirRegistry
  m_directories : List String
  m_snap_sync_stats : String → Option SnapSyncStat
  m_stopping : Bool

/-- `m_snap_sync_stats.at(dir_path)` followed by a mutation of the entry:
`none` when the key is absent (`std::map::at` throws `std::out_of_range`),
otherwise the state with only that entry rewritten. -/
def statsUpdate (st : PeerReplayerState) (dir_path : String)
    (f : SnapSyncStat → SnapSyncStat) : Option PeerReplayerState :=
  match st.m_snap_sync_stats dir_path with
  | none => none
  | some s => some { st with m_snap_sync_stats :=
      fun q => if q = dir_path then some (f s) else st.m_snap_sync_stats q }

/-- `PeerReplayer::_inc_failed_count`: stamps `last_failed = clock::now()`,
increments `nr_failures`, and sets `failed` when the incremented counter
reaches `cephfs_mirror_max_consecutive_failures_per_directory`
(`max_failures`). -/
def _inc_failed_count (max_failures now : Nat) (st : PeerReplayerState)
    (dir_path : String) : Option PeerReplayerState :=
  statsUpdate st dir_path (fun s =>
    { s with last_failed := some now,
             nr_failures := s.nr_failures + 1,
             failed := if s.nr_failures + 1 ≥ max_failures then true
                       else s.failed })

/-- `PeerReplayer::_reset_failed_count`: zeroes `nr_failures`, clears
`failed` and `last_failed`. -/
def _reset_failed_count (st : PeerReplayerState) (dir_path : String) :
    Option PeerReplayerState :=
  statsUpdate st dir_path (fun s =>
    { s with nr_failures := 0, failed := false, last_failed := none })

/-- `PeerReplayer::_set_last_synced_snap`: records the last synced snapshot
pair and clears the currently-syncing snapshot. -/
def _set_last_synced_snap (st : PeerReplayerState) (dir_path : String)
    (snap_id : Nat) (snap_name : String) : Option PeerReplayerState :=
  statsUpdate st dir_path (fun s =>
    { s with last_synced_snap := some (snap_id, snap_name),
             current_syncing_snap := none })

/-- `PeerReplayer::set_last_synced_snap`: takes `m_lock` and calls
`_set_last_synced_snap` (the lock is immaterial in the sequential
embedding). -/
def set_last_synced_snap (st : PeerReplayerState) (dir_path : String)
    (snap_id : Nat) (snap_name : String) : Option PeerReplayerState :=
  _set_last_synced_snap st dir_path snap_id snap_name

/-- `PeerReplayer::set_current_syncing_snap`. -/
def set_current_syncing_snap (st : PeerReplayerState) (dir_path : String)
    (snap_id : Nat) (snap_name : String) : Option PeerReplayerState :=
  statsUpdate st dir_path (fun s =>
    { s with current_syncing_snap := some (snap_id, snap_name) })

/-- `PeerReplayer::clear_current_syncing_snap`. -/
def clear_current_syncing_snap (st : PeerReplayerState) (dir_path : String) :
    Option PeerReplayerState :=
  statsUpdate st dir_path (fun s => { s with current_syncing_snap := none })

/-- `PeerReplayer::inc_deleted_snap`. -/
def inc_deleted_snap (st : PeerReplayerState) (dir_path : String) :
    Option PeerReplayerState :=
  statsUpdate st dir_path (fun s =>
    { s with deleted_snap_count := s.deleted_snap_count + 1 })

/-- `PeerReplayer::inc_renamed_snap`. -/
def inc_renamed_snap (st : PeerReplayerState) (dir_path : String) :
    Option PeerReplayerState :=
  statsUpdate st dir_path (fun s =>
    { s with renamed_snap_count := s.renamed_snap_count + 1 })

/-- `PeerReplayer::set_last_synced_stat`: `_set_last_synced_snap`, then a
second `at(dir_path)` access stamping `last_synced = clock::now()`, storing
the sync duration and bumping `synced_snap_count` (two lookups in the C++,
kept as two steps). -/
def set_last_synced_stat (now duration : Nat) (st : PeerReplayerState)
    (dir_path : String) (snap_id : Nat) (snap_name : String) :
    Option PeerReplayerState :=
  match _set_last_synced_snap st dir_path snap_id snap_name with
  | none => none
  | some st1 => statsUpdate st1 dir_path (fun s =>
      { s with last_synced := now,
               last_sync_duration := some duration,
               synced_snap_count := s.synced_snap_count + 1 })

/-- `PeerReplayer::should_backoff`: the blocklist oracle
(`m_fs_mirror->is_blocklisted()`) is checked first, before the lock and the
registry; then `is_stopping()`; then `m_registered.at(dir_path)` (an
`Option`, since `at` throws on a missing key) and the registered worker's
cancellation flag.  The returned pair is (return value, `*retval`). -/
def should_backoff (blocklisted : Bool) (st : PeerReplayerState)
    (dir_path : String) : Option (Bool × Int) :=
  if blocklisted then
    some (true, -EBLOCKLISTED)
  else if st.m_stopping then
    some (true, -EINPROGRESS)
  else
    match st.m_registered dir_path with
    | none => none
    | some dr =>
      if dr.replayer.is_canceled then
        some (true, -ECANCELED)
      else
        some (false, 0)

/-- The sync-stat entry for `p` after an operation: `none` if the operation
itself failed (missing key), else that entry of the resulting state. -/
def statAfter (r : Option PeerReplayerState) (p : String) :
    Option SnapSyncStat :=
  r.bind (fun st => st.m_snap_sync_stats p)

/-- Lookup by snapshot id in a snapshot map (`std::map<uint64_t,
std::string>::find`), the map represented as its id-ordered entry list. -/
def lookupSnap (m : List (Nat × String)) (id : Nat) : Option String :=
  match m with
  | [] => none
  | (i, n) :: rest => if i = id then some n else lookupSnap rest id

/-- Modelled from the spec: the body of `PeerReplayer::do_sync_snaps` is not
in the header, only its declaration; the spec says the new snapshots to
synchronize are the local identifiers strictly greater than the last-synced
identifier, processed in ascending identifier order (the iteration order of
the id-keyed local snapshot map built by `build_snap_map`).  The map is
represented as its id-ordered entry list, so the selection is a filter. -/
def sync_targets (local_snap_map : List (Nat × String))
    (last_synced_id : Nat) : List (Nat × String) :=
  local_snap_map.filter (fun p => last_synced_id < p.1)

/-- Modelled from the spec: the diff step of `PeerReplayer::do_sync_snaps`
(declared in the header, body absent) classifies, for each remote snapshot,
a deletion when its identifier has no match in the local map, and a rename
`(old_name, new_name)` when the identifier is present in both maps under
different names.  Returns (delete set, rename set), in remote-map order. -/
def snap_diff (local_snap_map : List (Nat × String)) :
    List (Nat × String) → List String × List (String × String)
  | [] => ([], [])
  | (id, name) :: rest =>
    let acc := snap_diff local_snap_map rest
    match lookupSnap local_snap_map id with
    | none => (name :: acc.1, acc.2)
    | some local_name =>
      if local_name = name then acc else (acc.1, (name, local_name) :: acc.2)

/-- A worker thread with its cancellation flag set. -/
def canceledThread : SnapshotReplayerThread :=
  { canceled := true }

/-- A small concrete replayer state for witnesses: directories `d` and `e`
with fresh sync stats, `d` registered to a live (non-canceled) worker. -/
def sampleState : PeerReplayerState :=
  { m_registered := fun q => if q = "d" then some { fd := 3, replayer := {} }
                             else none
    m_directories := ["d", "e"]
    m_snap_sync_stats := fun q => if q = "d" then some {}
                                  else if q = "e" then some {} else none
    m_stopping := false }

/-- `sampleState` with `d` registered to a canceled worker. -/
def sampleCanceled : PeerReplayerState :=
  { sampleState with
    m_registered := fun q =>
      if q = "d" then some { fd := 3, replayer := canceledThread } else none }

/-- `sampleState` with the stopping flag raised. -/
def sampleStopping : PeerReplayerState :=
  { sampleState with m_stopping := true }

/-- A state whose directory `d` already has two consecutive failures and is
quarantined (`failed = true`). -/
def failedTwiceState : PeerReplayerState :=
  { m_registered := fun _ => none
    m_directories := ["d"]
    m_snap_sync_stats := fun q =>
      if q = "d" then some { nr_failures := 2, last_failed := some 7,
                             failed := true }
      else none
    m_stopping := false }

/-- `statsUpdate` on a present key rewrites exactly that entry. -/
theorem statAfter_statsUpdate (st : PeerReplayerState) (p : String)
    (f : SnapSyncStat → SnapSyncStat) (s : SnapSyncStat)
    (h : st.m_snap_sync_stats p = some s) :
    statAfter (statsUpdate st p f) p = some (f s) := by
  simp [statsUpdate, statAfter, h]

/-- C1: `should_backoff(dir_path)` evaluates its conditions in this fixed
order: blocklisted first — and for every state, including one with no
registry entry for `dir_path`, so the registry is not consulted — then the
stopping flag (cooperative shutdown), then the registered worker's
cancellation flag; when none holds it returns false with no reason
(retval 0). -/
theorem C1_should_backoff_order (bl : Bool) (st : PeerReplayerState)
    (dir_path : String) :
    (bl = true → should_backoff bl st dir_path = some (true, -EBLOCKLISTED)) ∧
    (bl = false → st.m_stopping = true →
      should_backoff bl st dir_path = some (true, -EINPROGRESS)) ∧
    (bl = false → st.m_stopping = false →
      ∀ dr, st.m_registered dir_path = some dr →
        (dr.replayer.is_canceled = true →
          should_backoff bl st dir_path = some (true, -ECANCELED)) ∧
        (dr.replayer.is_canceled = false →
          should_backoff bl st dir_path = some (false, 0))) := by
  refine ⟨?_, ?_, ?_⟩
  · rintro rfl
    simp [should_backoff]
  · rintro rfl hstop
    simp [should_backoff, hstop]
  · rintro rfl hstop dr hdr
    exact ⟨fun hc => by simp [should_backoff, hstop, hdr, hc],
           fun hc => by simp [should_backoff, hstop, hdr, hc]⟩

/-- Witness for C1: with the fencing oracle true, backoff fires with the
fatal reason on a directory that is not even registered. -/
theorem C1_should_backoff_order_witness :
    should_backoff true sampleState "nowhere" = some (true, -EBLOCKLISTED) :=
  (C1_should_backoff_order true sampleState "nowhere").1 rfl

/-- C4: the three backoff reasons carry pairwise-distinct error codes:
`-EBLOCKLISTED` (= -108) for fencing, `-EINPROGRESS` (= -115) for shutdown
and `-ECANCELED` (= -125) for per-worker cancellation, so fencing is always
distinguishable from shutdown by the returned code. -/
theorem C4_distinct_backoff_codes (st1 st2 st3 : PeerReplayerState)
    (d1 d2 d3 : String) (dr : DirRegistry)
    (h2 : st2.m_stopping = true) (h3 : st3.m_stopping = false)
    (hr : st3.m_registered d3 = some dr)
    (hc : dr.replayer.is_canceled = true) :
    should_backoff true st1 d1 = some (true, -EBLOCKLISTED) ∧
    should_backoff false st2 d2 = some (true, -EINPROGRESS) ∧
    should_backoff false st3 d3 = some (true, -ECANCELED) ∧
    (-EBLOCKLISTED : Int) ≠ -EINPROGRESS ∧
    (-EBLOCKLISTED : Int) ≠ -ECANCELED ∧
    (-EINPROGRESS : Int) ≠ -ECANCELED := by
  refine ⟨by simp [should_backoff], by simp [should_backoff, h2],
          by simp [should_backoff, h3, hr, hc], ?_, ?_, ?_⟩
  all_goals decide

/-- Witness for C4: the three codes observed on concrete states. -/
theorem C4_distinct_backoff_codes_witness :
    should_backoff true sampleState "x" = some (true, -EBLOCKLISTED) ∧
    should_backoff false sampleStopping "d" = some (true, -EINPROGRESS) ∧
    should_backoff false sampleCanceled "d" = some (true, -ECANCELED) ∧
    (-EBLOCKLISTED : Int) ≠ -EINPROGRESS ∧
    (-EBLOCKLISTED : Int) ≠ -ECANCELED ∧
    (-EINPROGRESS : Int) ≠ -ECANCELED :=
  C4_distinct_backoff_codes sampleState sampleStopping sampleCanceled
    "x" "d" "d" { fd := 3, replayer := canceledThread } rfl rfl rfl rfl

/-- C7: `SyncEntry.is_directory` is derived solely from the type bits of the
stored metadata: it equals `S_ISDIR` of the mode, it is true exactly when
the mode's type bits are the directory bits, and it agrees on any two
entries with the same mode regardless of path or traversal handle. -/
theorem C7_is_directory_type_bits :
    (∀ e : SyncEntry, e.is_directory = S_ISDIR e.stx.stx_mode) ∧
    (∀ e : SyncEntry,
      e.is_directory = true ↔ e.stx.stx_mode &&& S_IFMT = S_IFDIR) ∧
    (∀ e1 e2 : SyncEntry, e1.stx.stx_mode = e2.stx.stx_mode →
      e1.is_directory = e2.is_directory) := by
  refine ⟨fun e => rfl, fun e => ?_, fun e1 e2 h => ?_⟩
  · simp [SyncEntry.is_directory, S_ISDIR]
  · simp [SyncEntry.is_directory, S_ISDIR, h]

/-- Witness for C7: two entries with different paths and handles but the
same mode agree on `is_directory`. -/
theorem C7_is_directory_type_bits_witness :
    (SyncEntry.mk "a" none ⟨0o040755⟩).is_directory =
      (SyncEntry.mk "b" (some 5) ⟨0o040755⟩).is_directory :=
  C7_is_directory_type_bits.2.2 (SyncEntry.mk "a" none ⟨0o040755⟩)
    (SyncEntry.mk "b" (some 5) ⟨0o040755⟩) rfl

/-- C8: `should_backoff` consults the registry only after the blocklisted
and stopping checks both return false: with either of those set it succeeds
even for an unregistered `dir_path`; the registry-lookup branch is the only
one that can fail, and under the precondition that `dir_path` is registered
the call never fails. -/
theorem C8_registry_consulted_last (st : PeerReplayerState)
    (dir_path : String) :
    (st.m_registered dir_path = none →
      should_backoff true st dir_path = some (true, -EBLOCKLISTED) ∧
      (st.m_stopping = true →
        should_backoff false st dir_path = some (true, -EINPROGRESS)) ∧
      (st.m_stopping = false → should_backoff false st dir_path = none)) ∧
    (∀ bl : Bool, (st.m_registered dir_path).isSome = true →
      (should_backoff bl st dir_path).isSome = true) := by
  constructor
  · intro hnone
    refine ⟨by simp [should_backoff], fun hstop => by
      simp [should_backoff, hstop], fun hstop => by
      simp [should_backoff, hstop, hnone]⟩
  · intro bl hsome
    obtain ⟨dr, hdr⟩ := Option.isSome_iff_exists.mp hsome
    cases bl with
    | true => simp [should_backoff]
    | false =>
      cases hstop : st.m_stopping with
      | true => simp [should_backoff, hstop]
      | false =>
        cases hc : dr.replayer.is_canceled with
        | true => simp [should_backoff, hstop, hdr, hc]
        | false => simp [should_backoff, hstop, hdr, hc]

/-- Witness for C8: on a concrete quiescent state the call fails only on an
unregistered path, and never fails on a registered one. -/
theorem C8_registry_consulted_last_witness :
    should_backoff false sampleState "nowhere" = none ∧
    (should_backoff false sampleState "d").isSome = true :=
  ⟨((C8_registry_consulted_last sampleState "nowhere").1 rfl).2.2 rfl,
   (C8_registry_consulted_last sampleState "d").2 false (by decide)⟩

/-- C10: worker cancellation is one-way: `cancel` leaves `is_canceled` true,
`cancel` (the only operation writing the flag) never resets a true flag, and
once the registered worker is canceled, `should_backoff` (absent the earlier
blocklisted/stopping branches) returns true with the cancellation reason for
every directory registered to that worker. -/
theorem C10_cancel_one_way :
    (∀ t : SnapshotReplayerThread, t.cancel.is_canceled = true) ∧
    (∀ t : SnapshotReplayerThread, t.is_canceled = true →
      t.cancel.is_canceled = true) ∧
    (∀ (st : PeerReplayerState) (dir_path : String) (dr : DirRegistry),
      st.m_stopping = false → st.m_registered dir_path = some dr →
      dr.replayer.is_canceled = true →
      should_backoff false st dir_path = some (true, -ECANCELED)) := by
  refine ⟨fun t => rfl, fun t _ => rfl, fun st p dr hstop hdr hc => ?_⟩
  simp [should_backoff, hstop, hdr, hc]

/-- Witness for C10: a canceled worker stays canceled and its registered
directory backs off with the cancellation code. -/
theorem C10_cancel_one_way_witness :
    canceledThread.cancel.is_canceled = true ∧
    should_backoff false sampleCanceled "d" = some (true, -ECANCELED) :=
  ⟨C10_cancel_one_way.2.1 canceledThread rfl,
   C10_cancel_one_way.2.2 sampleCanceled "d"
     { fd := 3, replayer := canceledThread } rfl rfl rfl⟩

/-- C2: `_inc_failed_count` increments the directory's consecutive-failure
counter by one, stamps `last_failed` to the current time, and sets `failed`
when the incremented counter reaches or exceeds the configured cap (with a
clear flag beforehand, the resulting flag is true iff the cap is reached);
concretely with cap 3, three consecutive calls starting from counter 0 leave
`failed = true`, and a single `_reset_failed_count` restores counter 0 and
`failed = false`. -/
theorem C2_record_failure :
    (∀ (mf now : Nat) (st : PeerReplayerState) (p : String)
      (s : SnapSyncStat), st.m_snap_sync_stats p = some s →
      statAfter (_inc_failed_count mf now st p) p =
        some { s with nr_failures := s.nr_failures + 1,
                      last_failed := some now,
                      failed := if s.nr_failures + 1 ≥ mf then true
                                else s.failed } ∧
      (s.failed = false → ∀ s',
        statAfter (_inc_failed_count mf now st p) p = some s' →
        (s'.failed = true ↔ s.nr_failures + 1 ≥ mf))) ∧
    (∀ (st : PeerReplayerState) (p : String) (s : SnapSyncStat),
      st.m_snap_sync_stats p = some s →
      statAfter (_reset_failed_count st p) p =
        some { s with nr_failures := 0, failed := false,
                      last_failed := none }) ∧
    ((statAfter ((_inc_failed_count 3 1 sampleState "d").bind
        (fun st => (_inc_failed_count 3 2 st "d").bind
          (fun st => _inc_failed_count 3 3 st "d"))) "d").map
        (fun s => (s.nr_failures, s.failed)) = some (3, true)) ∧
    ((statAfter ((_inc_failed_count 3 1 sampleState "d").bind
        (fun st => (_inc_failed_count 3 2 st "d").bind
          (fun st => (_inc_failed_count 3 3 st "d").bind
            (fun st => _reset_failed_count st "d")))) "d").map
        (fun s => (s.nr_failures, s.failed)) = some (0, false)) := by
  refine ⟨?_, ?_, by decide, by decide⟩
  · intro mf now st p s h
    have h1 : statAfter (_inc_failed_count mf now st p) p =
        some { s with nr_failures := s.nr_failures + 1,
                      last_failed := some now,
                      failed := if s.nr_failures + 1 ≥ mf then true
                                else s.failed } :=
      statAfter_statsUpdate st p _ s h
    refine ⟨h1, fun hf s' h2 => ?_⟩
    rw [h1] at h2
    cases h2
    by_cases hmf : s.nr_failures + 1 ≥ mf
    · simp [hmf]
    · simp [hmf, hf]
  · intro st p s h
    exact statAfter_statsUpdate st p _ s h

/-- Witness for C2: a third failure on a directory with two consecutive
failures trips the quarantine flag. -/
theorem C2_record_failure_witness :
    statAfter (_inc_failed_count 3 11 failedTwiceState "d") "d" =
      some { nr_failures := 3, last_failed := some 11, failed := true } :=
  (C2_record_failure.1 3 11 failedTwiceState "d"
    { nr_failures := 2, last_failed := some 7, failed := true } rfl).1

/-- C3 counterexample: `set_last_synced_stat` does not reset the
consecutive-failure counter or the quarantined flag — on a directory with
two failures and `failed = true`, recording a success leaves them at
(2, true), not (0, false) as the claim states. -/
theorem C3_no_failure_reset_counterexample :
    (statAfter (set_last_synced_stat 9 4 failedTwiceState "d" 1 "s1")
        "d").map (fun s => (s.nr_failures, s.failed)) = some (2, true) ∧
    ¬ ((statAfter (set_last_synced_stat 9 4 failedTwiceState "d" 1 "s1")
        "d").map (fun s => (s.nr_failures, s.failed)) = some (0, false)) :=
  ⟨by decide, by decide⟩

/-- C3 (amended): `set_last_synced_stat` sets the last-synced snapshot to
`(snap_id, snap_name)`, clears the currently-syncing snapshot, updates the
last-sync duration and timestamp and increments the synced-snapshot count,
while leaving the consecutive-failure counter and the quarantined flag
unchanged (those are reset separately by `_reset_failed_count`). -/
theorem C3_set_last_synced_stat_effect (now dur : Nat)
    (st : PeerReplayerState) (p : String) (s : SnapSyncStat)
    (snap_id : Nat) (snap_name : String)
    (h : st.m_snap_sync_stats p = some s) :
    statAfter (set_last_synced_stat now dur st p snap_id snap_name) p =
      some { s with last_synced_snap := some (snap_id, snap_name),
                    current_syncing_snap := none,
                    last_synced := now,
                    last_sync_duration := some dur,
                    synced_snap_count := s.synced_snap_count + 1 } := by
  simp [set_last_synced_stat, _set_last_synced_snap, statsUpdate,
        statAfter, h]

/-- Witness for C3 (amended): concrete success recording on a quarantined
directory. -/
theorem C3_set_last_synced_stat_effect_witness :
    statAfter (set_last_synced_stat 9 4 failedTwiceState "d" 1 "s1") "d" =
      some { nr_failures := 2, last_failed := some 7, failed := true,
             last_synced_snap := some (1, "s1"),
             current_syncing_snap := none, synced_snap_count := 1,
             last_synced := 9, last_sync_duration := some 4 } :=
  C3_set_last_synced_stat_effect 9 4 failedTwiceState "d"
    { nr_failures := 2, last_failed := some 7, failed := true } 1 "s1" rfl

/-- C5: the snapshots handed to `synchronize` for a directory are exactly
the local snapshots with identifier strictly greater than the last-synced
identifier, in strictly increasing identifier order (given the id-sorted
local map built by `build_snap_map`): nothing below or at the last-synced id
is replayed, and no eligible local snapshot is skipped. -/
theorem C5_monotonic_replay (l : List (Nat × String)) (last : Nat)
    (hsorted : l.Pairwise (fun a b => a.1 < b.1)) :
    (sync_targets l last).Pairwise (fun a b => a.1 < b.1) ∧
    (∀ p ∈ sync_targets l last, last < p.1) ∧
    (∀ p ∈ l, last < p.1 → p ∈ sync_targets l last) ∧
    (∀ p ∈ sync_targets l last, p ∈ l) := by
  refine ⟨hsorted.filter _, ?_, ?_, ?_⟩
  · intro p hp
    have h := List.of_mem_filter hp
    simpa using h
  · intro p hp hlt
    exact List.mem_filter.mpr ⟨hp, by simpa using hlt⟩
  · intro p hp
    exact (List.mem_filter.mp hp).1

/-- Witness for C5: with last-synced id 1 over three local snapshots, the
replay targets are strictly increasing. -/
theorem C5_monotonic_replay_witness :
    ([((1 : Nat), "s1"), (2, "s2"), (3, "s3")].Pairwise
      (fun a b => a.1 < b.1)) ∧
    (sync_targets [((1 : Nat), "s1"), (2, "s2"), (3, "s3")] 1).Pairwise
      (fun a b => a.1 < b.1) :=
  ⟨by decide,
   (C5_monotonic_replay [((1 : Nat), "s1"), (2, "s2"), (3, "s3")] 1
     (by decide)).1⟩

/-- C6: the snapshot diff classifies a remote name whose identifier has no
local match as a deletion, and an identifier present in both maps under
different names as a rename `(old_name, new_name)`: local
`[(1, a), (2, b)]` vs remote `[(1, a), (2, old_b)]` gives renames
`[(old_b, b)]` and no deletions; local `[(1, a)]` vs remote
`[(1, a), (2, b)]` gives deletions `[b]`. -/
theorem C6_snap_diff_classification :
    snap_diff [(1, "a"), (2, "b")] [(1, "a"), (2, "old_b")] =
      ([], [("old_b", "b")]) ∧
    snap_diff [(1, "a")] [(1, "a"), (2, "b")] = (["b"], []) :=
  ⟨by decide, by decide⟩

/-- The frame property of a per-directory stat mutator: the sync-stat
entries of all other directories, the directory set and the registry are
untouched. -/
def framePreserving
    (op : PeerReplayerState → String → Option PeerReplayerState) : Prop :=
  ∀ (st : PeerReplayerState) (p : String) (st' : PeerReplayerState),
    op st p = some st' →
    (∀ q, q ≠ p → st'.m_snap_sync_stats q = st.m_snap_sync_stats q) ∧
    st'.m_directories = st.m_directories ∧
    st'.m_registered = st.m_registered

/-- Any single `statsUpdate` is frame-preserving. -/
theorem statsUpdate_framePreserving (f : SnapSyncStat → SnapSyncStat) :
    framePreserving (fun st p => statsUpdate st p f) := by
  intro st p st' h
  have h' : statsUpdate st p f = some st' := h
  cases hs : st.m_snap_sync_stats p with
  | none => simp [statsUpdate, hs] at h'
  | some s =>
    simp only [statsUpdate, hs, Option.some.injEq] at h'
    subst h'
    refine ⟨fun q hq => ?_, rfl, rfl⟩
    simp [hq]

/-- `set_last_synced_stat` (two chained `statsUpdate`s) is
frame-preserving. -/
theorem set_last_synced_stat_framePreserving (now dur snap_id : Nat)
    (snap_name : String) :
    framePreserving
      (fun st p => set_last_synced_stat now dur st p snap_id snap_name) := by
  intro st p st' h
  have h' : set_last_synced_stat now dur st p snap_id snap_name = some st' :=
    h
  cases h1 : _set_last_synced_snap st p snap_id snap_name with
  | none => simp [set_last_synced_stat, h1] at h'
  | some st1 =>
    simp only [set_last_synced_stat, h1] at h'
    have f1 := statsUpdate_framePreserving
      (fun s => { s with last_synced_snap := some (snap_id, snap_name),
                         current_syncing_snap := none }) st p st1 h1
    have f2 := statsUpdate_framePreserving
      (fun s => { s with last_synced := now,
                         last_sync_duration := some dur,
                         synced_snap_count := s.synced_snap_count + 1 })
      st1 p st' h'
    exact ⟨fun q hq => (f2.1 q hq).trans (f1.1 q hq),
           f2.2.1.trans f1.2.1, f2.2.2.trans f1.2.2⟩

/-- C9: every per-directory stat mutator (`_inc_failed_count`,
`_reset_failed_count`, `set_last_synced_snap`, `set_current_syncing_snap`,
`clear_current_syncing_snap`, `inc_deleted_snap`, `inc_renamed_snap`,
`set_last_synced_stat`) modifies only the `SnapSyncStat` entry keyed by its
directory path: every other path's entry, the directory set and the
registry are unchanged. -/
theorem C9_stat_mutators_frame :
    (∀ mf now, framePreserving (_inc_failed_count mf now)) ∧
    framePreserving _reset_failed_count ∧
    (∀ snap_id snap_name, framePreserving
      (fun st p => set_last_synced_snap st p snap_id snap_name)) ∧
    (∀ snap_id snap_name, framePreserving
      (fun st p => set_current_syncing_snap st p snap_id snap_name)) ∧
    framePreserving clear_current_syncing_snap ∧
    framePreserving inc_deleted_snap ∧
    framePreserving inc_renamed_snap ∧
    (∀ now dur snap_id snap_name, framePreserving
      (fun st p => set_last_synced_stat now dur st p snap_id snap_name)) :=
  ⟨fun _ _ => statsUpdate_framePreserving _,
   statsUpdate_framePreserving _,
   fun _ _ => statsUpdate_framePreserving _,
   fun _ _ => statsUpdate_framePreserving _,
   statsUpdate_framePreserving _,
   statsUpdate_framePreserving _,
   statsUpdate_framePreserving _,
   fun now dur snap_id snap_name =>
     set_last_synced_stat_framePreserving now dur snap_id snap_name⟩

/-- The state after one concrete `_inc_failed_count` on `sampleState`. -/
def incResultState : PeerReplayerState :=
  (_inc_failed_count 3 1 sampleState "d").getD sampleState

/-- Witness for C9: a failure recorded against `d` leaves the entry for `e`
untouched. -/
theorem C9_stat_mutators_frame_witness :
    incResultState.m_snap_sync_stats "e" =
      sampleState.m_snap_sync_stats "e" :=
  ((C9_stat_mutators_frame.1 3 1) sampleState "d" incResultState rfl).1 "e"
    (by decide)

end CephfsMirror
